import Mathlib

/-!
Verification of the bazzeye session-authentication and privilege-escalation
core against its specification.

The definitions below are a shallow embedding of the TypeScript sources:

* `AuthService` (the per-connection, two-tier variant in `src/unnamed/part_013`):
  session table, lazy expiry, login, sudo elevation, credential persistence
  and the legacy-record migration.
* The socket request dispatch in `src/server/src/index.ts` (which handlers
  gate on the sudo check before running a privileged action).
* The escalated shell command construction in
  `src/server/src/services/FileService.ts` together with a POSIX-style
  word/command splitter used to state injection-safety properties.

Wall-clock times (`Date.now()`) are millisecond timestamps modelled as `Nat`
and passed in explicitly.  `bcrypt.hash` / `bcrypt.compare` are modelled as
abstract function parameters.  Filesystem persistence is modelled as an
explicit "disk" value threaded through the save path, with an explicit
boolean saying whether the underlying write succeeds.
-/

namespace Bazzeye

/-- Per-connection session record: the values of the `sessions` map in
`AuthService` (`src/unnamed/part_013`), `{ isAuthenticated, isSudo, expiresAt }`. -/
structure Session where
  isAuthenticated : Bool
  isSudo : Bool
  expiresAt : Nat
  deriving Repr, DecidableEq

/-- The fresh session inserted by `getSession` for an unknown socket id. -/
def freshSession : Session :=
  { isAuthenticated := false, isSudo := false, expiresAt := 0 }

/-- The session table.  The TypeScript service keeps sessions in a JS `Map`
keyed by socket id; a JS map holds at most one value per key, so the table is
modelled as a function from ids to optional sessions. -/
def SessMap : Type := String → Option Session

def emptySessions : SessMap := fun _ => none

/-- `Map.set` on the session table. -/
def mapSet (k : String) (v : Session) (m : SessMap) : SessMap :=
  fun id => if id = k then some v else m id

/-- `Map.delete` on the session table. -/
def mapDelete (k : String) (m : SessMap) : SessMap :=
  fun id => if id = k then none else m id

/-- In-memory state of `AuthService` (`src/unnamed/part_013`): the session
map, the two password hashes and the persisted sudo preference. -/
structure AuthState where
  sessions : SessMap
  dashboardPasswordHash : Option String
  sudoPasswordHash : Option String
  sudoEnabled : Bool

/-- JavaScript truthiness of a nullable string (the `!x` / `!!x` tests in the
source): `null`/absent and the empty string are falsy, all other strings
truthy.  Stored bcrypt hashes are never empty, but the model keeps the exact
JS semantics. -/
def jsTruthy : Option String → Bool
  | none => false
  | some s => !s.isEmpty

/-- The session TTL used throughout `AuthService`: 3600000 ms (one hour). -/
def sessionTTL : Nat := 3600000

/-- `AuthService.getSession` (part_013 lines 71-85): look up the session,
lazily creating a fresh one for an unknown id, then clear both flags if an
authenticated session is past its expiry.  Both effects mutate the map, so
the new state is returned together with the session. -/
def getSession (now : Nat) (socketId : String) (st : AuthState) : Session × AuthState :=
  let s0 := match st.sessions socketId with
    | some s => s
    | none => freshSession
  let s1 := if s0.isAuthenticated = true ∧ s0.expiresAt < now then
      { s0 with isAuthenticated := false, isSudo := false }
    else s0
  (s1, { st with sessions := mapSet socketId s1 st.sessions })

/-- `AuthService.removeSession` (disconnect handler). -/
def removeSession (socketId : String) (st : AuthState) : AuthState :=
  { st with sessions := mapDelete socketId st.sessions }

/-- `AuthService.cleanupSessions` (part_013 lines 91-98): the periodic sweep
deletes every entry with `expiresAt < now`, authenticated or not. -/
def cleanupSessions (now : Nat) (st : AuthState) : AuthState :=
  { st with sessions := fun id =>
      match st.sessions id with
      | some s => if s.expiresAt < now then none else some s
      | none => none }

/-- `AuthService.refreshSession` (part_013 lines 100-106): extend the expiry
of an authenticated session by one hour from `now`. -/
def refreshSession (now : Nat) (socketId : String) (st : AuthState) : AuthState :=
  let s := (getSession now socketId st).1
  let st1 := (getSession now socketId st).2
  if s.isAuthenticated = true then
    { st1 with sessions := mapSet socketId { s with expiresAt := now + sessionTTL } st1.sessions }
  else st1

/-- `AuthService.isAuthenticated` (part_013 lines 110-115): with no dashboard
password the system is open and every connection counts as authenticated,
without even touching the session table; otherwise the (expiry-checked)
session flag is returned. -/
def isAuthenticatedQ (now : Nat) (socketId : String) (st : AuthState) : Bool × AuthState :=
  if jsTruthy st.dashboardPasswordHash = false then (true, st)
  else
    ((getSession now socketId st).1.isAuthenticated, (getSession now socketId st).2)

/-- `AuthService.isSudo` (part_013 lines 117-119). -/
def isSudoQ (now : Nat) (socketId : String) (st : AuthState) : Bool × AuthState :=
  ((getSession now socketId st).1.isSudo, (getSession now socketId st).2)

/-- `AuthService.setAuthenticated` (part_013 lines 156-165): granting sets a
fresh one-hour expiry; revoking also revokes sudo. -/
def setAuthenticated (now : Nat) (socketId : String) (state : Bool) (st : AuthState) :
    AuthState :=
  let s := (getSession now socketId st).1
  let st1 := (getSession now socketId st).2
  let s1 := if state then
      { s with isAuthenticated := true, expiresAt := now + sessionTTL }
    else
      { s with isAuthenticated := false, isSudo := false }
  { st1 with sessions := mapSet socketId s1 st1.sessions }

/-- `AuthService.setSudo` (part_013 lines 203-214): enabling sudo on a
session whose own `isAuthenticated` flag is unset is silently refused (the
early `return` happens after `getSession` already touched the map). -/
def setSudo (now : Nat) (socketId : String) (state : Bool) (st : AuthState) : AuthState :=
  let s := (getSession now socketId st).1
  let st1 := (getSession now socketId st).2
  if s.isAuthenticated = false ∧ state = true then st1
  else
    let s1 := if state then { s with isSudo := state, expiresAt := now + sessionTTL }
      else { s with isSudo := state }
    { st1 with sessions := mapSet socketId s1 st1.sessions }

/-- Result record of `requestToggleSudo`. -/
structure ToggleResult where
  success : Bool
  requiresPassword : Bool
  deriving Repr, DecidableEq

/-- `AuthService.requestToggleSudo` (part_013 lines 183-201): turning sudo
off always succeeds; turning it on succeeds immediately when no sudo
password is set, and otherwise asks for the password without changing
state. -/
def requestToggleSudo (now : Nat) (socketId : String) (st : AuthState) :
    ToggleResult × AuthState :=
  let s := (getSession now socketId st).1
  let st1 := (getSession now socketId st).2
  if s.isSudo = true then
    ({ success := true, requiresPassword := false }, setSudo now socketId false st1)
  else if jsTruthy st.sudoPasswordHash = false then
    ({ success := true, requiresPassword := false }, setSudo now socketId true st1)
  else
    ({ success := false, requiresPassword := true }, st1)

/-- `AuthService.login` (part_013 lines 132-144), with `bcrypt.compare`
abstracted as `bcmp`.  With no dashboard password every login succeeds and
authenticates the session. -/
def login (bcmp : String → String → Bool) (now : Nat) (socketId : String)
    (password : String) (st : AuthState) : Bool × AuthState :=
  if jsTruthy st.dashboardPasswordHash = false then
    (true, setAuthenticated now socketId true st)
  else if bcmp password (st.dashboardPasswordHash.getD "") then
    (true, setAuthenticated now socketId true st)
  else
    (false, st)

/-- `AuthService.verifySudoPassword` (part_013 lines 149-154): with no sudo
password set, verification succeeds unconditionally. -/
def verifySudoPassword (bcmp : String → String → Bool) (password : String)
    (st : AuthState) : Bool :=
  if jsTruthy st.sudoPasswordHash = false then true
  else bcmp password (st.sudoPasswordHash.getD "")

/-- `AuthService.checkSession` (part_013 lines 170-180); the triple is
`(needsPassword, sudoWasEnabled, isAuthenticated)`. -/
def checkSession (now : Nat) (socketId : String) (st : AuthState) :
    (Bool × Bool × Bool) × AuthState :=
  let s := (getSession now socketId st).1
  ((jsTruthy st.dashboardPasswordHash && !s.isAuthenticated,
    st.sudoEnabled, s.isAuthenticated), (getSession now socketId st).2)

/-- The persisted credential record written by `AuthService.save`
(part_013 lines 56-67): the two-tier format, with no legacy field. -/
structure VaultRecord where
  dashboardPasswordHash : Option String
  sudoPasswordHash : Option String
  sudoEnabled : Bool
  deriving Repr, DecidableEq

/-- The record `save` would write for a state. -/
def currentRecord (st : AuthState) : VaultRecord :=
  { dashboardPasswordHash := st.dashboardPasswordHash,
    sudoPasswordHash := st.sudoPasswordHash,
    sudoEnabled := st.sudoEnabled }

/-- `AuthService.save` (part_013 lines 56-67): `fs.writeFileSync` wrapped in
`try/catch` whose handler only logs.  `writeOk` says whether the underlying
write succeeds; on failure the disk is left unchanged and — crucially — no
error escapes to the caller (the function always returns normally). -/
def save (writeOk : Bool) (st : AuthState) (disk : Option VaultRecord) :
    Option VaultRecord :=
  if writeOk then some (currentRecord st) else disk

/-- `AuthService.setDashboardPassword` (part_013 lines 216-223), with
`bcrypt.hash` abstracted as `bhash`.  Returns the new state, the new disk
contents, and the outcome reported to the caller — the TypeScript method
returns a promise that always resolves (never rejects), because `save`
swallows write errors, so the reported outcome is unconditionally `true`
("success"). -/
def setDashboardPassword (bhash : String → String) (password : String)
    (writeOk : Bool) (st : AuthState) (disk : Option VaultRecord) :
    AuthState × Option VaultRecord × Bool :=
  let st1 := { st with dashboardPasswordHash :=
    if password.isEmpty then none else some (bhash password) }
  (st1, save writeOk st1 disk, true)

/-- `AuthService.setSudoPassword` (part_013 lines 225-232); same shape as
`setDashboardPassword`. -/
def setSudoPassword (bhash : String → String) (password : String)
    (writeOk : Bool) (st : AuthState) (disk : Option VaultRecord) :
    AuthState × Option VaultRecord × Bool :=
  let st1 := { st with sudoPasswordHash :=
    if password.isEmpty then none else some (bhash password) }
  (st1, save writeOk st1 disk, true)

/-- The raw persisted document as read back by `AuthService.load`
(part_013 lines 34-54): any of the hash fields may be absent (`none`). -/
structure RawAuth where
  passwordHash : Option String
  dashboardPasswordHash : Option String
  sudoPasswordHash : Option String
  sudoEnabled : Bool
  deriving Repr, DecidableEq

/-- JS `x || null`: keep a truthy string, collapse falsy values to `null`. -/
def orNull (o : Option String) : Option String :=
  if jsTruthy o then o else none

/-- `AuthService.load` (part_013 lines 34-54): if the document has only the
legacy single `passwordHash` field, both tier hashes are initialized from
it (the migration); otherwise the two-tier fields are taken as stored. -/
def load (raw : RawAuth) (st : AuthState) : AuthState :=
  if jsTruthy raw.passwordHash = true ∧ jsTruthy raw.dashboardPasswordHash = false then
    { st with dashboardPasswordHash := raw.passwordHash,
              sudoPasswordHash := raw.passwordHash,
              sudoEnabled := raw.sudoEnabled }
  else
    { st with dashboardPasswordHash := orNull raw.dashboardPasswordHash,
              sudoPasswordHash := orNull raw.sudoPasswordHash,
              sudoEnabled := raw.sudoEnabled }

/-- A legacy-format document `{ passwordHash, sudoEnabled }`. -/
def legacyRaw (h : String) (se : Bool) : RawAuth :=
  { passwordHash := some h, dashboardPasswordHash := none,
    sudoPasswordHash := none, sudoEnabled := se }

/-- The sweep as the spec's reset-to-Locked reading describes it (stated
from the spec's words, for the refinement comparison): expired records are
reset in place with both flags cleared instead of being deleted. -/
def cleanupResetSpec (now : Nat) (st : AuthState) : AuthState :=
  { st with sessions := fun id =>
      match st.sessions id with
      | some s =>
          if s.expiresAt < now then
            some { s with isAuthenticated := false, isSudo := false }
          else some s
      | none => none }

/-- A stored (or absent) record whose effective content is Locked: an absent
record is lazily recreated as a fresh Locked one, so `none` counts. -/
def lockedOpt (o : Option Session) : Prop :=
  (o.getD freshSession).isAuthenticated = false ∧ (o.getD freshSession).isSudo = false

/-- Two stored records are observationally interchangeable: equal, or both
effectively Locked. -/
def SessRel (a b : Option Session) : Prop :=
  a = b ∨ (lockedOpt a ∧ lockedOpt b)

/-- Observational equivalence relation on service states: same credential
configuration, and pointwise interchangeable session records. -/
def StateRel (s1 s2 : AuthState) : Prop :=
  s1.dashboardPasswordHash = s2.dashboardPasswordHash ∧
  s1.sudoPasswordHash = s2.sudoPasswordHash ∧
  s1.sudoEnabled = s2.sudoEnabled ∧
  ∀ id, SessRel (s1.sessions id) (s2.sessions id)

/-- The state of a freshly constructed service: empty session map, hashes as
restored by `load` (abstracted here as arbitrary start values). -/
def initialState (d s : Option String) (se : Bool) : AuthState :=
  { sessions := emptySessions, dashboardPasswordHash := d,
    sudoPasswordHash := s, sudoEnabled := se }

/-- One externally triggered operation on the service: each public method of
`AuthService`, including the state effects of the query methods, tagged with
the wall-clock instant at which it runs. -/
inductive AuthOp where
  | loginOp (now : Nat) (id pw : String)
  | setAuthOp (now : Nat) (id : String) (b : Bool)
  | setSudoOp (now : Nat) (id : String) (b : Bool)
  | toggleOp (now : Nat) (id : String)
  | refreshOp (now : Nat) (id : String)
  | isAuthOp (now : Nat) (id : String)
  | isSudoOp (now : Nat) (id : String)
  | checkOp (now : Nat) (id : String)
  | removeOp (id : String)
  | cleanupOp (now : Nat)
  | setDashPwOp (pw : String)
  | setSudoPwOp (pw : String)

/-- State effect of one operation. -/
def applyOp (bcmp : String → String → Bool) (bhash : String → String) :
    AuthOp → AuthState → AuthState
  | .loginOp now id pw, st => (login bcmp now id pw st).2
  | .setAuthOp now id b, st => setAuthenticated now id b st
  | .setSudoOp now id b, st => setSudo now id b st
  | .toggleOp now id, st => (requestToggleSudo now id st).2
  | .refreshOp now id, st => refreshSession now id st
  | .isAuthOp now id, st => (isAuthenticatedQ now id st).2
  | .isSudoOp now id, st => (isSudoQ now id st).2
  | .checkOp now id, st => (checkSession now id st).2
  | .removeOp id, st => removeSession id st
  | .cleanupOp now, st => cleanupSessions now st
  | .setDashPwOp pw, st => (setDashboardPassword bhash pw true st none).1
  | .setSudoPwOp pw, st => (setSudoPassword bhash pw true st none).1

/-- States reachable from a freshly constructed service by any sequence of
operations. -/
inductive Reachable (bcmp : String → String → Bool) (bhash : String → String) :
    AuthState → Prop where
  | start (d s : Option String) (se : Bool) : Reachable bcmp bhash (initialState d s se)
  | step (op : AuthOp) {st : AuthState} (h : Reachable bcmp bhash st) :
      Reachable bcmp bhash (applyOp bcmp bhash op st)

/-- A session record respecting the core invariant: sudo only with base
authentication. -/
def goodSess (s : Session) : Prop := s.isSudo = true → s.isAuthenticated = true

/-- The core invariant over the whole session table. -/
def SudoImpliesAuth (st : AuthState) : Prop :=
  ∀ id s, st.sessions id = some s → goodSess s

/-- Characterization helper (not itself part of the source): the session
value `getSession` computes from the stored record before writing it back —
the record with both flags cleared when an authenticated session is past its
expiry, the record unchanged otherwise. -/
def effSession (now : Nat) (s0 : Session) : Session :=
  if s0.isAuthenticated = true ∧ s0.expiresAt < now then
    { s0 with isAuthenticated := false, isSudo := false }
  else s0

/-- The authentication status observed for a connection (the boolean a
privileged gate sees), without the query's state effect. -/
def authView (now : Nat) (id : String) (st : AuthState) : Bool :=
  (isAuthenticatedQ now id st).1

/-- The elevation status observed for a connection. -/
def sudoView (now : Nat) (id : String) (st : AuthState) : Bool :=
  (isSudoQ now id st).1

/-- The privileged executions a socket handler can trigger
(`src/server/src/index.ts`). -/
inductive PrivAction where
  | reboot
  | shutdownAct
  | updateSystem
  | ujust (recipe : String)
  | pkgInstall (pkg : String)
  | pkgUninstall (pkg : String)
  | fileDelete (p : String)
  | fileCreateFolder (p : String)
  | fileCreateFile (p : String)
  | setCleanSchedule
  deriving Repr, DecidableEq

/-- A privileged client request arriving on the socket. -/
inductive ClientRequest where
  | systemControl (action : String)
  | ujustExecute (recipe : String)
  | packageInstall (pkg : String)
  | packageUninstall (pkg : String)
  | filesDelete (p : String)
  | filesCreateFolder (p : String)
  | filesCreateFile (p : String)
  | cleanerSetSchedule
  deriving Repr, DecidableEq

/-- Character class of the recipe validation regex in
`SystemControlService.executeUjust`: `[a-zA-Z0-9\-\_]`. -/
def isUjustChar (c : Char) : Bool := c.isAlpha || c.isDigit || c = '-' || c = '_'

/-- `executeUjust`'s recipe validation (the regex `[a-zA-Z0-9\-\_]+`
anchored at both ends); an invalid recipe throws before execution. -/
def validUjustRecipe (r : String) : Bool := !r.isEmpty && r.data.all isUjustChar

/-- The socket dispatch of `src/server/src/index.ts`: the privileged
executions each handler performs, given the value of the sudo gate
(`authService.isSudo()`) at the moment the request arrives.  Every
privileged handler returns early when the gate is off — except
`ujust:execute`, whose gate check is commented out in the source, so it
executes any valid recipe unconditionally. -/
def handleRequest (sudoGate : Bool) : ClientRequest → List PrivAction
  | .systemControl a =>
      if sudoGate = false then []
      else if a = "reboot" then [.reboot]
      else if a = "shutdown" then [.shutdownAct]
      else if a = "update" then [.updateSystem]
      else []
  | .ujustExecute r => if validUjustRecipe r then [.ujust r] else []
  | .packageInstall p => if sudoGate = false then [] else [.pkgInstall p]
  | .packageUninstall p => if sudoGate = false then [] else [.pkgUninstall p]
  | .filesDelete p => if sudoGate = false then [] else [.fileDelete p]
  | .filesCreateFolder p => if sudoGate = false then [] else [.fileCreateFolder p]
  | .filesCreateFile p => if sudoGate = false then [] else [.fileCreateFile p]
  | .cleanerSetSchedule => if sudoGate = false then [] else [.setCleanSchedule]

/-- `.replace(/'/g, "'\\''")` on the character list (the replacement of
every single quote `FileService` performs on user-supplied paths): each
quote becomes quote–backslash–quote–quote, every other character is kept. -/
def escSQ : List Char → List Char
  | [] => []
  | c :: cs =>
      if c = '\'' then '\'' :: '\\' :: '\'' :: '\'' :: escSQ cs
      else c :: escSQ cs

/-- `FileService`'s `safePath` computation on a whole string. -/
def shellEscapeSQ (s : String) : String := ⟨escSQ s.data⟩

/-- The command string `FileService.deleteFile` passes to `execSudo`
(`rm -rf '<safePath>'`). -/
def deleteFileSudoCmd (p : String) : String := "rm -rf '" ++ shellEscapeSQ p ++ "'"

/-- The two command strings `FileService.createFolder` passes to `execSudo`
(`mkdir -p` then a `chown` to the owner). -/
def createFolderSudoCmds (owner p : String) : List String :=
  ["mkdir -p '" ++ shellEscapeSQ p ++ "'",
   "chown " ++ owner ++ ":" ++ owner ++ " '" ++ shellEscapeSQ p ++ "'"]

/-- The two command strings `FileService.createFile` passes to `execSudo`. -/
def createFileSudoCmds (owner p : String) : List String :=
  ["touch '" ++ shellEscapeSQ p ++ "'",
   "chown " ++ owner ++ ":" ++ owner ++ " '" ++ shellEscapeSQ p ++ "'"]

/-- The first of the two command strings `FileService.listWithSudo` passes
to `execSudo`: the directory probe. -/
def listSudoProbeCmd (p : String) : String := "test -d '" ++ shellEscapeSQ p ++ "'"

/-- The second command string `FileService.listWithSudo` passes to
`execSudo`: the entry listing (`find '<safePath>' -maxdepth 1 -mindepth 1
-printf "%y|%s|%f\n"`; the `\\n` of the TypeScript template literal is the
two characters backslash–n). -/
def listSudoFindCmd (p : String) : String :=
  "find '" ++ shellEscapeSQ p ++ "' -maxdepth 1 -mindepth 1 -printf \"%y|%s|%f\\n\""

/-- `AuthService.execSudo`: the command line handed to the shell is
`sudo -n ` prefixed to the caller's command string. -/
def execSudoLine (command : String) : String := "sudo -n " ++ command

/-- Parser modes of the POSIX word/command splitter: outside quotes, inside
single quotes, inside double quotes, and just after a backslash (in the two
modes where a backslash escapes the next character). -/
inductive ShMode where
  | norm
  | sq
  | dq
  | escN
  | escD
  deriving Repr, DecidableEq

/-- Blank characters that separate words. -/
def isShSpace (c : Char) : Bool := c = ' ' || c = '\t'

/-- Operator characters that end the current command (`;`, `&`, `|` and
newline). -/
def isShSep (c : Char) : Bool := c = ';' || c = '&' || c = '|' || c = '\n'

/-- A character with no meaning to the shell outside quotes: not a quote,
backslash, blank or command separator.  The owner name interpolated
(unescaped) into the `chown` lines is trusted deployment configuration — a
username read from `/etc/bazzeye.conf` or detected by `OwnerService` — and
usernames consist of such characters. -/
def shPlainChar (c : Char) : Bool :=
  !(c = '\'' || c = '"' || c = '\\' || isShSpace c || isShSep c)

/-- Characters a backslash escapes inside double quotes: dollar, double
quote, backslash, and the backquote (code point 96). -/
def dqEscapable (c : Char) : Bool :=
  c = '$' || c = '"' || c = '\\' || c.toNat = 96

/-- Close the current word, if one is open, appending it to the current
command's argument vector. -/
def flushTok (tok : Option (List Char)) (cmd : List String) : List String :=
  match tok with
  | none => cmd
  | some t => cmd ++ [⟨t⟩]

/-- Close the current command, if non-empty, appending it to the output. -/
def flushCmd (cmd : List String) (out : List (List String)) : List (List String) :=
  match cmd with
  | [] => out
  | _ => out ++ [cmd]

/-- POSIX-style word and command splitting of a command line, as `/bin/sh`
(which Node's `exec` invokes) reads it: single quotes protect everything up
to the next single quote, a backslash escapes the next character, blanks
separate words, and `; & |` and newline separate commands.  Only quoting and
word/command structure is modelled — expansion is irrelevant to the
properties proved, whose dynamic content sits entirely inside single quotes,
where the shell expands nothing. -/
def shSplit : List Char → ShMode → Option (List Char) → List String →
    List (List String) → List (List String)
  | [], _, tok, cmd, out => flushCmd (flushTok tok cmd) out
  | c :: cs, .norm, tok, cmd, out =>
      if c = '\'' then shSplit cs .sq (some (tok.getD [])) cmd out
      else if c = '"' then shSplit cs .dq (some (tok.getD [])) cmd out
      else if c = '\\' then shSplit cs .escN (some (tok.getD [])) cmd out
      else if isShSpace c then shSplit cs .norm none (flushTok tok cmd) out
      else if isShSep c then shSplit cs .norm none [] (flushCmd (flushTok tok cmd) out)
      else shSplit cs .norm (some (tok.getD [] ++ [c])) cmd out
  | c :: cs, .sq, tok, cmd, out =>
      if c = '\'' then shSplit cs .norm tok cmd out
      else shSplit cs .sq (some (tok.getD [] ++ [c])) cmd out
  | c :: cs, .dq, tok, cmd, out =>
      if c = '"' then shSplit cs .norm tok cmd out
      else if c = '\\' then shSplit cs .escD tok cmd out
      else shSplit cs .dq (some (tok.getD [] ++ [c])) cmd out
  | c :: cs, .escN, tok, cmd, out => shSplit cs .norm (some (tok.getD [] ++ [c])) cmd out
  | c :: cs, .escD, tok, cmd, out =>
      if dqEscapable c then shSplit cs .dq (some (tok.getD [] ++ [c])) cmd out
      else shSplit cs .dq (some (tok.getD [] ++ ['\\', c])) cmd out

/-- The sequence of commands (token vectors) a POSIX shell reads from a
command line. -/
def shellParse (s : String) : List (List String) := shSplit s.data .norm none [] []

/-- Naive whitespace tokenization, with no quote handling: the token vector
a command string denotes when read as discrete argv entries. -/
def spaceSplit : List Char → Option (List Char) → List String
  | [], none => []
  | [], some t => [⟨t⟩]
  | c :: cs, tok =>
      if isShSpace c then
        match tok with
        | none => spaceSplit cs none
        | some t => ⟨t⟩ :: spaceSplit cs none
      else spaceSplit cs (some ((tok.getD []) ++ [c]))

def naiveTokens (s : String) : List String := spaceSplit s.data none

/-- The expiry deadline currently stored for a connection. -/
def expView (id : String) (st : AuthState) : Option Nat :=
  (st.sessions id).map (fun s => s.expiresAt)

/-- A state with a single stored session, used for concrete instances. -/
def sessionAt (id : String) (s : Session) (d su : Option String) : AuthState :=
  { sessions := mapSet id s emptySessions, dashboardPasswordHash := d,
    sudoPasswordHash := su, sudoEnabled := false }

/-- The all-null persisted record, used for concrete instances. -/
def emptyVaultRecord : VaultRecord :=
  { dashboardPasswordHash := none, sudoPasswordHash := none, sudoEnabled := false }

/-- A state used by witnesses: a connection "c" authenticated and elevated at
time 0, under trivial hash functions. -/
def elevState : AuthState :=
  applyOp (fun _ _ => false) (fun _ => "h") (.setSudoOp 0 "c" true)
    (applyOp (fun _ _ => false) (fun _ => "h") (.setAuthOp 0 "c" true)
      (initialState none none false))

theorem mapSet_self (k : String) (v : Session) (m : SessMap) : mapSet k v m k = some v := by
  simp [mapSet]

theorem mapSet_ne (k : String) (v : Session) (m : SessMap) (id : String) (h : id ≠ k) :
    mapSet k v m id = m id := by
  simp [mapSet, h]

theorem goodSess_fresh : goodSess freshSession := by
  intro h
  simp [freshSession] at h

theorem sudoImpliesAuth_set {st : AuthState} (k : String) (v : Session)
    (hst : SudoImpliesAuth st) (hv : goodSess v) :
    SudoImpliesAuth { st with sessions := mapSet k v st.sessions } := by
  intro id s hs
  dsimp only at hs
  by_cases hid : id = k
  · subst hid
    rw [mapSet_self] at hs
    cases hs
    exact hv
  · rw [mapSet_ne _ _ _ _ hid] at hs
    exact hst id s hs

/-- Characterization of `getSession`: the session it returns, and the fact
that the new table is the old one with that session written at the key. -/
theorem getSession_spec (now : Nat) (id : String) (st : AuthState) :
    ((getSession now id st).2.sessions = mapSet id (getSession now id st).1 st.sessions) ∧
    ((getSession now id st).2.dashboardPasswordHash = st.dashboardPasswordHash) ∧
    ((getSession now id st).2.sudoPasswordHash = st.sudoPasswordHash) ∧
    ((getSession now id st).2.sudoEnabled = st.sudoEnabled) := by
  simp [getSession]

/-- The session produced by `getSession` respects the invariant whenever the
table does. -/
theorem getSession_good (now : Nat) (id : String) {st : AuthState}
    (hst : SudoImpliesAuth st) : goodSess (getSession now id st).1 := by
  unfold getSession
  simp only []
  split
  · intro h
    simp at h
  · rename_i hcond
    cases hlook : st.sessions id with
    | some s =>
      simp only [hlook]
      exact hst id s hlook
    | none =>
      simp only [hlook]
      exact goodSess_fresh

theorem getSession_inv (now : Nat) (id : String) {st : AuthState}
    (hst : SudoImpliesAuth st) : SudoImpliesAuth (getSession now id st).2 := by
  have h1 := getSession_good now id hst
  have h2 := (getSession_spec now id st).1
  intro id2 s hs
  rw [h2] at hs
  by_cases hid : id2 = id
  · subst hid
    rw [mapSet_self] at hs
    cases hs
    exact h1
  · rw [mapSet_ne _ _ _ _ hid] at hs
    exact hst id2 s hs

theorem inv_setAuthenticated (now : Nat) (id : String) (b : Bool) {st : AuthState}
    (hst : SudoImpliesAuth st) : SudoImpliesAuth (setAuthenticated now id b st) := by
  unfold setAuthenticated
  dsimp only
  apply sudoImpliesAuth_set _ _ (getSession_inv now id hst)
  cases b with
  | true =>
    intro _
    rfl
  | false =>
    intro h
    simp at h

theorem inv_setSudo (now : Nat) (id : String) (b : Bool) {st : AuthState}
    (hst : SudoImpliesAuth st) : SudoImpliesAuth (setSudo now id b st) := by
  unfold setSudo
  dsimp only
  split
  · exact getSession_inv now id hst
  · rename_i hcond
    apply sudoImpliesAuth_set _ _ (getSession_inv now id hst)
    cases b with
    | true =>
      intro _
      rcases hauth : (getSession now id st).1.isAuthenticated with _ | _
      · exact absurd ⟨hauth, rfl⟩ hcond
      · rfl
    | false =>
      intro h
      simp at h

theorem inv_requestToggleSudo (now : Nat) (id : String) {st : AuthState}
    (hst : SudoImpliesAuth st) : SudoImpliesAuth (requestToggleSudo now id st).2 := by
  unfold requestToggleSudo
  dsimp only
  split
  · exact inv_setSudo now id false (getSession_inv now id hst)
  · split
    · exact inv_setSudo now id true (getSession_inv now id hst)
    · exact getSession_inv now id hst

theorem inv_refreshSession (now : Nat) (id : String) {st : AuthState}
    (hst : SudoImpliesAuth st) : SudoImpliesAuth (refreshSession now id st) := by
  unfold refreshSession
  dsimp only
  split
  · apply sudoImpliesAuth_set _ _ (getSession_inv now id hst)
    intro h
    exact getSession_good now id hst h
  · exact getSession_inv now id hst

theorem inv_login (bcmp : String → String → Bool) (now : Nat) (id pw : String)
    {st : AuthState} (hst : SudoImpliesAuth st) :
    SudoImpliesAuth (login bcmp now id pw st).2 := by
  unfold login
  split
  · exact inv_setAuthenticated now id true hst
  · split
    · exact inv_setAuthenticated now id true hst
    · exact hst

theorem inv_isAuthenticatedQ (now : Nat) (id : String) {st : AuthState}
    (hst : SudoImpliesAuth st) : SudoImpliesAuth (isAuthenticatedQ now id st).2 := by
  unfold isAuthenticatedQ
  split
  · exact hst
  · exact getSession_inv now id hst

theorem inv_isSudoQ (now : Nat) (id : String) {st : AuthState}
    (hst : SudoImpliesAuth st) : SudoImpliesAuth (isSudoQ now id st).2 := by
  unfold isSudoQ
  exact getSession_inv now id hst

theorem inv_checkSession (now : Nat) (id : String) {st : AuthState}
    (hst : SudoImpliesAuth st) : SudoImpliesAuth (checkSession now id st).2 := by
  unfold checkSession
  exact getSession_inv now id hst

theorem inv_removeSession (id : String) {st : AuthState}
    (hst : SudoImpliesAuth st) : SudoImpliesAuth (removeSession id st) := by
  intro id2 s hs
  unfold removeSession at hs
  dsimp only at hs
  unfold mapDelete at hs
  split at hs
  · cases hs
  · exact hst id2 s hs

theorem inv_cleanupSessions (now : Nat) {st : AuthState}
    (hst : SudoImpliesAuth st) : SudoImpliesAuth (cleanupSessions now st) := by
  intro id2 s hs
  unfold cleanupSessions at hs
  dsimp only at hs
  rcases hlook : st.sessions id2 with _ | s0
  · rw [hlook] at hs
    cases hs
  · rw [hlook] at hs
    dsimp only at hs
    by_cases hexp : s0.expiresAt < now
    · rw [if_pos hexp] at hs
      cases hs
    · rw [if_neg hexp] at hs
      cases hs
      exact hst id2 _ hlook

theorem inv_setDashboardPassword (bhash : String → String) (pw : String) (ok : Bool)
    {st : AuthState} (disk : Option VaultRecord) (hst : SudoImpliesAuth st) :
    SudoImpliesAuth (setDashboardPassword bhash pw ok st disk).1 := by
  intro id2 s hs
  exact hst id2 s hs

theorem inv_setSudoPassword (bhash : String → String) (pw : String) (ok : Bool)
    {st : AuthState} (disk : Option VaultRecord) (hst : SudoImpliesAuth st) :
    SudoImpliesAuth (setSudoPassword bhash pw ok st disk).1 := by
  intro id2 s hs
  exact hst id2 s hs

/-- Every reachable state satisfies the core invariant on its session table. -/
theorem reachable_sudoImpliesAuth {bcmp : String → String → Bool}
    {bhash : String → String} {st : AuthState} (h : Reachable bcmp bhash st) :
    SudoImpliesAuth st := by
  induction h with
  | start d s se =>
    intro id sess hs
    cases hs
  | step op h ih =>
    cases op with
    | loginOp now id pw => exact inv_login bcmp now id pw ih
    | setAuthOp now id b => exact inv_setAuthenticated now id b ih
    | setSudoOp now id b => exact inv_setSudo now id b ih
    | toggleOp now id => exact inv_requestToggleSudo now id ih
    | refreshOp now id => exact inv_refreshSession now id ih
    | isAuthOp now id => exact inv_isAuthenticatedQ now id ih
    | isSudoOp now id => exact inv_isSudoQ now id ih
    | checkOp now id => exact inv_checkSession now id ih
    | removeOp id => exact inv_removeSession id ih
    | cleanupOp now => exact inv_cleanupSessions now ih
    | setDashPwOp pw => exact inv_setDashboardPassword bhash pw true none ih
    | setSudoPwOp pw => exact inv_setSudoPassword bhash pw true none ih

theorem sudo_query_implies_auth_query {st : AuthState} (hst : SudoImpliesAuth st)
    (now : Nat) (id : String) (h : (isSudoQ now id st).1 = true) :
    (isAuthenticatedQ now id st).1 = true := by
  unfold isSudoQ at h
  dsimp only at h
  unfold isAuthenticatedQ
  split
  · rfl
  · dsimp only
    exact getSession_good now id hst h

theorem isSudoQ_after_logout (nowq now : Nat) (id : String) (st : AuthState) :
    (isSudoQ nowq id (setAuthenticated now id false st)).1 = false := by
  simp [isSudoQ, getSession, setAuthenticated, mapSet]

theorem isSudoQ_after_remove (nowq : Nat) (id : String) (st : AuthState) :
    (isSudoQ nowq id (removeSession id st)).1 = false := by
  simp [isSudoQ, getSession, removeSession, mapDelete, freshSession]

theorem isSudoQ_after_expiry {st : AuthState} (hst : SudoImpliesAuth st)
    (now : Nat) (id : String) {s : Session} (hlook : st.sessions id = some s)
    (hexp : s.expiresAt < now) : (isSudoQ now id st).1 = false := by
  unfold isSudoQ getSession
  dsimp only
  rw [hlook]
  dsimp only
  rcases hauth : s.isAuthenticated with _ | _
  · rcases hsudo : s.isSudo with _ | _
    · split
      · rfl
      · exact hsudo
    · exact absurd (hst id s hlook hsudo) (by simp [hauth])
  · rw [if_pos ⟨rfl, hexp⟩]

/-- **C1.** In every reachable state the core invariant holds at the query
level: `isSudo` true implies `isAuthenticated` true at the same instant;
moreover revoking base authentication (`setAuthenticated _ _ false`, the
logout path), removing the session (disconnect) and expiry all leave
`isSudo` reporting `false`. -/
theorem c1_elevated_implies_authenticated (bcmp : String → String → Bool)
    (bhash : String → String) (st : AuthState) (h : Reachable bcmp bhash st) :
    (∀ now id, (isSudoQ now id st).1 = true → (isAuthenticatedQ now id st).1 = true) ∧
    (∀ now nowq id st0, (isSudoQ nowq id (setAuthenticated now id false st0)).1 = false) ∧
    (∀ nowq id st0, (isSudoQ nowq id (removeSession id st0)).1 = false) ∧
    (∀ now id s, st.sessions id = some s → s.expiresAt < now →
      (isSudoQ now id st).1 = false) := by
  have hinv := reachable_sudoImpliesAuth h
  refine ⟨fun now id => sudo_query_implies_auth_query hinv now id,
    fun now nowq id st0 => isSudoQ_after_logout nowq now id st0,
    fun nowq id st0 => isSudoQ_after_remove nowq id st0,
    fun now id s hlook hexp => isSudoQ_after_expiry hinv now id hlook hexp⟩

/-- Witness for C1: a concrete reachable state in which connection `"c"` is
elevated, where the theorem yields that it is also authenticated. -/
theorem c1_elevated_implies_authenticated_witness :
    (isSudoQ 5 "c" elevState).1 = true ∧ (isAuthenticatedQ 5 "c" elevState).1 = true :=
  have hr : Reachable (fun _ _ => false) (fun _ => "h") elevState :=
    Reachable.step (.setSudoOp 0 "c" true)
      (Reachable.step (.setAuthOp 0 "c" true) (Reachable.start none none false))
  have hq : (isSudoQ 5 "c" elevState).1 = true := by decide
  ⟨hq, (c1_elevated_implies_authenticated _ _ _ hr).1 5 "c" hq⟩

theorem views_eq_of_frame {st1 st : AuthState} (c2 : String)
    (hsess : st1.sessions c2 = st.sessions c2)
    (hdash : st1.dashboardPasswordHash = st.dashboardPasswordHash) (nowq : Nat) :
    authView nowq c2 st1 = authView nowq c2 st ∧
    sudoView nowq c2 st1 = sudoView nowq c2 st := by
  constructor
  · unfold authView isAuthenticatedQ getSession
    rw [hsess, hdash]
    split
    · rfl
    · dsimp only
  · unfold sudoView isSudoQ getSession
    rw [hsess]

theorem frame_getSession (now : Nat) (c1 : String) (st : AuthState) {c2 : String}
    (h : c2 ≠ c1) : (getSession now c1 st).2.sessions c2 = st.sessions c2 := by
  rw [(getSession_spec now c1 st).1]
  exact mapSet_ne _ _ _ _ h

theorem frame_setAuthenticated (now : Nat) (c1 : String) (b : Bool) (st : AuthState)
    {c2 : String} (h : c2 ≠ c1) :
    (setAuthenticated now c1 b st).sessions c2 = st.sessions c2 ∧
    (setAuthenticated now c1 b st).dashboardPasswordHash = st.dashboardPasswordHash := by
  unfold setAuthenticated
  dsimp only
  rw [mapSet_ne _ _ _ _ h]
  exact ⟨frame_getSession now c1 st h, (getSession_spec now c1 st).2.1⟩

theorem frame_setSudo (now : Nat) (c1 : String) (b : Bool) (st : AuthState)
    {c2 : String} (h : c2 ≠ c1) :
    (setSudo now c1 b st).sessions c2 = st.sessions c2 ∧
    (setSudo now c1 b st).dashboardPasswordHash = st.dashboardPasswordHash := by
  unfold setSudo
  dsimp only
  split
  · exact ⟨frame_getSession now c1 st h, (getSession_spec now c1 st).2.1⟩
  · dsimp only
    rw [mapSet_ne _ _ _ _ h]
    exact ⟨frame_getSession now c1 st h, (getSession_spec now c1 st).2.1⟩

theorem frame_requestToggleSudo (now : Nat) (c1 : String) (st : AuthState)
    {c2 : String} (h : c2 ≠ c1) :
    (requestToggleSudo now c1 st).2.sessions c2 = st.sessions c2 ∧
    (requestToggleSudo now c1 st).2.dashboardPasswordHash = st.dashboardPasswordHash := by
  unfold requestToggleSudo
  dsimp only
  split
  · rw [(frame_setSudo now c1 false _ h).1, (frame_setSudo now c1 false _ h).2]
    exact ⟨frame_getSession now c1 st h, (getSession_spec now c1 st).2.1⟩
  · split
    · rw [(frame_setSudo now c1 true _ h).1, (frame_setSudo now c1 true _ h).2]
      exact ⟨frame_getSession now c1 st h, (getSession_spec now c1 st).2.1⟩
    · exact ⟨frame_getSession now c1 st h, (getSession_spec now c1 st).2.1⟩

theorem frame_refreshSession (now : Nat) (c1 : String) (st : AuthState)
    {c2 : String} (h : c2 ≠ c1) :
    (refreshSession now c1 st).sessions c2 = st.sessions c2 ∧
    (refreshSession now c1 st).dashboardPasswordHash = st.dashboardPasswordHash := by
  unfold refreshSession
  dsimp only
  split
  · dsimp only
    rw [mapSet_ne _ _ _ _ h]
    exact ⟨frame_getSession now c1 st h, (getSession_spec now c1 st).2.1⟩
  · exact ⟨frame_getSession now c1 st h, (getSession_spec now c1 st).2.1⟩

theorem frame_login (bcmp : String → String → Bool) (now : Nat) (c1 pw : String)
    (st : AuthState) {c2 : String} (h : c2 ≠ c1) :
    (login bcmp now c1 pw st).2.sessions c2 = st.sessions c2 ∧
    (login bcmp now c1 pw st).2.dashboardPasswordHash = st.dashboardPasswordHash := by
  unfold login
  split
  · exact frame_setAuthenticated now c1 true st h
  · split
    · exact frame_setAuthenticated now c1 true st h
    · exact ⟨rfl, rfl⟩

theorem frame_queries (now : Nat) (c1 : String) (st : AuthState)
    {c2 : String} (h : c2 ≠ c1) :
    ((isAuthenticatedQ now c1 st).2.sessions c2 = st.sessions c2 ∧
     (isAuthenticatedQ now c1 st).2.dashboardPasswordHash = st.dashboardPasswordHash) ∧
    ((isSudoQ now c1 st).2.sessions c2 = st.sessions c2 ∧
     (isSudoQ now c1 st).2.dashboardPasswordHash = st.dashboardPasswordHash) ∧
    ((checkSession now c1 st).2.sessions c2 = st.sessions c2 ∧
     (checkSession now c1 st).2.dashboardPasswordHash = st.dashboardPasswordHash) := by
  refine ⟨?_, ?_, ?_⟩
  · unfold isAuthenticatedQ
    split
    · exact ⟨rfl, rfl⟩
    · exact ⟨frame_getSession now c1 st h, (getSession_spec now c1 st).2.1⟩
  · exact ⟨frame_getSession now c1 st h, (getSession_spec now c1 st).2.1⟩
  · exact ⟨frame_getSession now c1 st h, (getSession_spec now c1 st).2.1⟩

theorem frame_removeSession (c1 : String) (st : AuthState) {c2 : String} (h : c2 ≠ c1) :
    (removeSession c1 st).sessions c2 = st.sessions c2 ∧
    (removeSession c1 st).dashboardPasswordHash = st.dashboardPasswordHash := by
  unfold removeSession mapDelete
  dsimp only
  rw [if_neg h]
  exact ⟨rfl, rfl⟩

/-- **C2.** Authorization state is per connection: every operation that
grants, revokes or (lazily) expires authentication or elevation for one
connection `c1` — login, setAuthenticated, setSudo, requestToggleSudo,
refreshSession, the three query methods with their lazy-expiry effect, and
removeSession — leaves both the authenticated and the elevated status
observed for any other connection `c2` unchanged. -/
theorem c2_authorization_state_per_connection (bcmp : String → String → Bool)
    (now nowq : Nat) (c1 c2 pw : String) (b : Bool) (st : AuthState) (h : c2 ≠ c1) :
    (authView nowq c2 ((login bcmp now c1 pw st).2) = authView nowq c2 st ∧
     sudoView nowq c2 ((login bcmp now c1 pw st).2) = sudoView nowq c2 st) ∧
    (authView nowq c2 (setAuthenticated now c1 b st) = authView nowq c2 st ∧
     sudoView nowq c2 (setAuthenticated now c1 b st) = sudoView nowq c2 st) ∧
    (authView nowq c2 (setSudo now c1 b st) = authView nowq c2 st ∧
     sudoView nowq c2 (setSudo now c1 b st) = sudoView nowq c2 st) ∧
    (authView nowq c2 ((requestToggleSudo now c1 st).2) = authView nowq c2 st ∧
     sudoView nowq c2 ((requestToggleSudo now c1 st).2) = sudoView nowq c2 st) ∧
    (authView nowq c2 (refreshSession now c1 st) = authView nowq c2 st ∧
     sudoView nowq c2 (refreshSession now c1 st) = sudoView nowq c2 st) ∧
    (authView nowq c2 ((isAuthenticatedQ now c1 st).2) = authView nowq c2 st ∧
     sudoView nowq c2 ((isAuthenticatedQ now c1 st).2) = sudoView nowq c2 st) ∧
    (authView nowq c2 ((isSudoQ now c1 st).2) = authView nowq c2 st ∧
     sudoView nowq c2 ((isSudoQ now c1 st).2) = sudoView nowq c2 st) ∧
    (authView nowq c2 ((checkSession now c1 st).2) = authView nowq c2 st ∧
     sudoView nowq c2 ((checkSession now c1 st).2) = sudoView nowq c2 st) ∧
    (authView nowq c2 (removeSession c1 st) = authView nowq c2 st ∧
     sudoView nowq c2 (removeSession c1 st) = sudoView nowq c2 st) := by
  refine ⟨?_, ?_, ?_, ?_, ?_, ?_, ?_, ?_, ?_⟩
  · exact views_eq_of_frame c2 (frame_login bcmp now c1 pw st h).1
      (frame_login bcmp now c1 pw st h).2 nowq
  · exact views_eq_of_frame c2 (frame_setAuthenticated now c1 b st h).1
      (frame_setAuthenticated now c1 b st h).2 nowq
  · exact views_eq_of_frame c2 (frame_setSudo now c1 b st h).1
      (frame_setSudo now c1 b st h).2 nowq
  · exact views_eq_of_frame c2 (frame_requestToggleSudo now c1 st h).1
      (frame_requestToggleSudo now c1 st h).2 nowq
  · exact views_eq_of_frame c2 (frame_refreshSession now c1 st h).1
      (frame_refreshSession now c1 st h).2 nowq
  · exact views_eq_of_frame c2 ((frame_queries now c1 st h).1).1
      ((frame_queries now c1 st h).1).2 nowq
  · exact views_eq_of_frame c2 ((frame_queries now c1 st h).2.1).1
      ((frame_queries now c1 st h).2.1).2 nowq
  · exact views_eq_of_frame c2 ((frame_queries now c1 st h).2.2).1
      ((frame_queries now c1 st h).2.2).2 nowq
  · exact views_eq_of_frame c2 (frame_removeSession c1 st h).1
      (frame_removeSession c1 st h).2 nowq

/-- Witness for C2 at concrete connections "a" and "b". -/
theorem c2_authorization_state_per_connection_witness :
    authView 7 "b" (setAuthenticated 3 "a" true elevState) = authView 7 "b" elevState ∧
    sudoView 7 "b" (setAuthenticated 3 "a" true elevState) = sudoView 7 "b" elevState :=
  (c2_authorization_state_per_connection (fun _ _ => false) 3 7 "a" "b" "pw" true
    elevState (by decide)).2.1

theorem getSession_fst (now : Nat) (id : String) (st : AuthState) :
    (getSession now id st).1 = effSession now ((st.sessions id).getD freshSession) := by
  unfold getSession effSession
  cases st.sessions id <;> rfl

theorem getSession_snd_lookup_self (now : Nat) (id : String) (st : AuthState) :
    (getSession now id st).2.sessions id = some (getSession now id st).1 := by
  rw [(getSession_spec now id st).1]
  exact mapSet_self _ _ _

theorem getSession_of_lookup (now : Nat) (id : String) (st : AuthState) {s : Session}
    (h : st.sessions id = some s) : (getSession now id st).1 = effSession now s := by
  rw [getSession_fst, h]
  rfl

theorem effSession_expiresAt (now : Nat) (s : Session) :
    (effSession now s).expiresAt = s.expiresAt := by
  unfold effSession
  split <;> rfl

theorem effSession_of_not_auth (now : Nat) {s : Session}
    (h : s.isAuthenticated = false) : effSession now s = s := by
  unfold effSession
  rw [if_neg]
  intro hc
  rw [h] at hc
  exact absurd hc.1 (by simp)

theorem effSession_auth_spec (now : Nat) {s : Session}
    (h : (effSession now s).isAuthenticated = true) :
    effSession now s = s ∧ ¬ s.expiresAt < now := by
  unfold effSession at h ⊢
  by_cases hc : s.isAuthenticated = true ∧ s.expiresAt < now
  · rw [if_pos hc] at h
    exact absurd h (by simp)
  · rw [if_neg hc]
    refine ⟨rfl, fun hlt => hc ⟨?_, hlt⟩⟩
    rw [if_neg hc] at h
    exact h

theorem effSession_stable (now : Nat) (s : Session) :
    effSession now (effSession now s) = effSession now s := by
  by_cases hc : s.isAuthenticated = true ∧ s.expiresAt < now
  · unfold effSession
    rw [if_pos hc, if_neg]
    intro h2
    exact absurd h2.1 (by simp)
  · unfold effSession
    rw [if_neg hc, if_neg hc]

/-- Granting sudo immediately after a successful gate read: if the session
`getSession` returns is flag-authenticated, `setSudo _ _ true` on the
resulting state elevates, and the elevation is observed at the same
instant. -/
theorem sudoView_after_grant (now : Nat) (id : String) (st : AuthState)
    (hauth : (getSession now id st).1.isAuthenticated = true) :
    sudoView now id (setSudo now id true (getSession now id st).2) = true := by
  have hlook := getSession_snd_lookup_self now id st
  have hstable : (getSession now id (getSession now id st).2).1 = (getSession now id st).1 := by
    rw [getSession_of_lookup now id _ hlook, getSession_fst]
    exact effSession_stable now _
  unfold setSudo
  dsimp only
  rw [if_neg]
  · have hTTL : ¬ (now + sessionTTL < now) := by
      unfold sessionTTL
      omega
    unfold sudoView isSudoQ
    dsimp only
    rw [getSession_fst]
    dsimp only
    rw [mapSet_self]
    simp [effSession, hstable, hauth, hTTL]
  · rw [hstable, hauth]
    intro h2
    exact absurd h2.1 (by simp)

/-- The silent refusal: `setSudo _ _ true` on the state left by `getSession`
does not elevate when the session flag is unauthenticated. -/
theorem sudoView_after_refused_grant (now : Nat) (id : String) (st : AuthState)
    (hauth : (getSession now id st).1.isAuthenticated = false)
    (hsudo : (getSession now id st).1.isSudo = false) :
    sudoView now id (setSudo now id true (getSession now id st).2) = false := by
  have hlook := getSession_snd_lookup_self now id st
  have hstable : (getSession now id (getSession now id st).2).1 = (getSession now id st).1 := by
    rw [getSession_of_lookup now id _ hlook, getSession_fst]
    exact effSession_stable now _
  unfold setSudo
  dsimp only
  rw [if_pos]
  · unfold sudoView isSudoQ
    dsimp only
    rw [getSession_fst]
    rw [getSession_snd_lookup_self]
    dsimp only [Option.getD]
    rw [hstable, effSession_of_not_auth now hauth, hsudo]
  · rw [hstable]
    exact ⟨hauth, rfl⟩

/-- **C3 counterexample.** Fresh vault (`dashboardPasswordHash = null`,
`sudoPasswordHash = null`), connection `"c"` never logged in: the connection
is auto-authenticated through the open dashboard, yet `requestToggleSudo`
reports `success = true` while the session is *not* elevated afterwards —
the request neither is a no-op failure nor transitions the session to
Elevated, refuting the claim on both counts. -/
theorem c3_counterexample :
    authView 0 "c" (initialState none none false) = true ∧
    (requestToggleSudo 0 "c" (initialState none none false)).1.success = true ∧
    sudoView 0 "c" (requestToggleSudo 0 "c" (initialState none none false)).2 = false := by
  decide

/-- **C3 (amended).** For a session that is not currently sudo: with an open
elevation tier, `requestToggleSudo` always reports
`{success := true, requiresPassword := false}`; it actually elevates exactly
when the session's own `isAuthenticated` flag is set (a connection that is
merely auto-authenticated by the open dashboard, or otherwise Locked, gets a
success report with no elevation, because `setSudo` silently refuses); with
an elevation password set it reports
`{success := false, requiresPassword := true}` and leaves the state exactly
as `getSession` left it. -/
theorem c3_request_elevate_amended (now : Nat) (id : String) (st : AuthState)
    (hs : (getSession now id st).1.isSudo = false) :
    (jsTruthy st.sudoPasswordHash = false →
      (requestToggleSudo now id st).1 = { success := true, requiresPassword := false } ∧
      ((getSession now id st).1.isAuthenticated = true →
        sudoView now id (requestToggleSudo now id st).2 = true) ∧
      ((getSession now id st).1.isAuthenticated = false →
        sudoView now id (requestToggleSudo now id st).2 = false)) ∧
    (jsTruthy st.sudoPasswordHash = true →
      (requestToggleSudo now id st).1 = { success := false, requiresPassword := true } ∧
      (requestToggleSudo now id st).2 = (getSession now id st).2) := by
  unfold requestToggleSudo
  dsimp only
  have hcond : ¬ ((getSession now id st).1.isSudo = true) := by
    rw [hs]
    simp
  rw [if_neg hcond]
  constructor
  · intro hopen
    rw [if_pos hopen]
    refine ⟨rfl, fun hauth => ?_, fun hnauth => ?_⟩
    · exact sudoView_after_grant now id st hauth
    · exact sudoView_after_refused_grant now id st hnauth hs
  · intro hset
    rw [if_neg (by rw [hset]; simp)]
    exact ⟨rfl, rfl⟩

/-- Witness for the amended C3, password-required branch, at a concrete
state with an elevation hash set. -/
theorem c3_request_elevate_amended_witness :
    (requestToggleSudo 4 "c" (initialState none (some "H") false)).1 =
      { success := false, requiresPassword := true } :=
  ((c3_request_elevate_amended 4 "c" (initialState none (some "H") false)
      (by decide)).2 (by decide)).1

/-- **C6 counterexample.** Connection `"c"` authenticated with
`expiresAt = 100`, dashboard password set, queried successfully at time 50:
the gate check returns `true` but leaves `expiresAt` at `100`, not
`50 + sessionTTL` — gate checks do not implement sliding-window expiry. -/
theorem c6_counterexample :
    authView 50 "c" (sessionAt "c" ⟨true, false, 100⟩ (some "H") none) = true ∧
    expView "c" ((isAuthenticatedQ 50 "c"
      (sessionAt "c" ⟨true, false, 100⟩ (some "H") none)).2) = some 100 ∧
    (100 : Nat) ≠ 50 + sessionTTL := by
  decide

/-- **C6 (amended).** Successful or not, the gate checks `isAuthenticated` /
`isSudo` never change the stored `expiresAt`; the deadline is set to
`now + sessionTTL` only by the grant operations and by `refreshSession`
(which no gate check calls) on an unexpired authenticated session. -/
theorem c6_gate_checks_do_not_refresh (now : Nat) (id : String) (st : AuthState)
    (s : Session) (h : st.sessions id = some s) :
    expView id ((isAuthenticatedQ now id st).2) = some s.expiresAt ∧
    expView id ((isSudoQ now id st).2) = some s.expiresAt ∧
    (s.isAuthenticated = true → ¬ s.expiresAt < now →
      expView id (refreshSession now id st) = some (now + sessionTTL)) := by
  refine ⟨?_, ?_, ?_⟩
  · unfold isAuthenticatedQ
    split
    · unfold expView
      rw [h]
      rfl
    · dsimp only
      unfold expView
      rw [getSession_snd_lookup_self]
      dsimp only [Option.map]
      rw [getSession_of_lookup now id st h, effSession_expiresAt]
  · unfold isSudoQ expView
    dsimp only
    rw [getSession_snd_lookup_self]
    dsimp only [Option.map]
    rw [getSession_of_lookup now id st h, effSession_expiresAt]
  · intro hauth hexp
    have heff : (getSession now id st).1 = s := by
      rw [getSession_of_lookup now id st h]
      unfold effSession
      rw [if_neg]
      intro hc
      exact hexp hc.2
    unfold refreshSession
    dsimp only
    rw [heff, if_pos hauth]
    unfold expView
    dsimp only
    rw [mapSet_self]
    rfl

/-- Witness for the amended C6 at a concrete unexpired session. -/
theorem c6_gate_checks_do_not_refresh_witness :
    expView "c" ((isSudoQ 50 "c" (sessionAt "c" ⟨true, false, 100⟩ (some "H") none)).2) =
      some 100 :=
  (c6_gate_checks_do_not_refresh 50 "c"
    (sessionAt "c" ⟨true, false, 100⟩ (some "H") none)
    ⟨true, false, 100⟩ (by decide)).2.1

/-- **C7 counterexample.** With a failing disk write, `setDashboardPassword`
still reports success while the on-disk record is unchanged and differs from
the advertised in-memory state — the persistence failure is swallowed inside
`save`, not returned to the caller. -/
theorem c7_counterexample :
    (setDashboardPassword (fun _ => "NEWHASH") "pw" false
      (initialState none none false) (some emptyVaultRecord)).2.2 = true ∧
    (setDashboardPassword (fun _ => "NEWHASH") "pw" false
      (initialState none none false) (some emptyVaultRecord)).2.1 = some emptyVaultRecord ∧
    currentRecord (setDashboardPassword (fun _ => "NEWHASH") "pw" false
      (initialState none none false) (some emptyVaultRecord)).1 ≠ emptyVaultRecord := by
  decide

/-- **C7 (amended).** `setDashboardPassword` / `setSudoPassword` call `save`
synchronously before returning, so on a successful write the disk holds the
new record; but a write failure is caught and logged inside `save`, the call
reports success regardless, and the disk is then left unchanged. -/
theorem c7_password_persistence_amended (bhash : String → String) (pw : String)
    (ok : Bool) (st : AuthState) (disk : Option VaultRecord) :
    ((setDashboardPassword bhash pw ok st disk).2.2 = true ∧
     (setDashboardPassword bhash pw ok st disk).2.1 =
       (if ok then some (currentRecord (setDashboardPassword bhash pw ok st disk).1)
        else disk)) ∧
    ((setSudoPassword bhash pw ok st disk).2.2 = true ∧
     (setSudoPassword bhash pw ok st disk).2.1 =
       (if ok then some (currentRecord (setSudoPassword bhash pw ok st disk).1)
        else disk)) := by
  constructor
  · refine ⟨rfl, ?_⟩
    unfold setDashboardPassword save
    dsimp only
  · refine ⟨rfl, ?_⟩
    unfold setSudoPassword save
    dsimp only

/-- **C8 counterexample.** Open-dashboard mode: connection `"c"` logs in at
time 0 (auto-authenticated, `expiresAt = sessionTTL`); at time
`3600001 > sessionTTL` the session is authenticated and expired, yet the
next `isAuthenticated` query reports `true`, because the open-dashboard
short-circuit ignores the session record entirely. -/
theorem c8_counterexample :
    ((login (fun _ _ => false) 0 "c" "" (initialState none none false)).2.sessions "c" =
      some { isAuthenticated := true, isSudo := false, expiresAt := sessionTTL }) ∧
    sessionTTL < 3600001 ∧
    authView 3600001 "c"
      (login (fun _ _ => false) 0 "c" "" (initialState none none false)).2 = true := by
  decide

/-- **C8 (amended).** An authenticated session past `expiresAt` is lazily
reset on the next query without any sweep: `isSudo` reports `false`, the
stored record is rewritten with both flags cleared, and `isAuthenticated`
reports `false` whenever a dashboard password is set — but in open-dashboard
mode (`dashboardPasswordHash` null) `isAuthenticated` reports `true`
regardless of expiry. -/
theorem c8_lazy_expiry_amended (now : Nat) (id : String) (st : AuthState)
    (s : Session) (h : st.sessions id = some s) (hauth : s.isAuthenticated = true)
    (hexp : s.expiresAt < now) :
    sudoView now id st = false ∧
    (jsTruthy st.dashboardPasswordHash = true → authView now id st = false) ∧
    ((isSudoQ now id st).2.sessions id =
      some { isAuthenticated := false, isSudo := false, expiresAt := s.expiresAt }) := by
  have heff : (getSession now id st).1 =
      { isAuthenticated := false, isSudo := false, expiresAt := s.expiresAt } := by
    rw [getSession_of_lookup now id st h]
    unfold effSession
    rw [if_pos ⟨hauth, hexp⟩]
  refine ⟨?_, ?_, ?_⟩
  · unfold sudoView isSudoQ
    dsimp only
    rw [heff]
  · intro hdash
    unfold authView isAuthenticatedQ
    rw [if_neg (by rw [hdash]; simp)]
    dsimp only
    rw [heff]
  · unfold isSudoQ
    dsimp only
    rw [getSession_snd_lookup_self, heff]

/-- Witness for the amended C8: a concrete expired authenticated session
with a dashboard password set reports unauthenticated and un-elevated. -/
theorem c8_lazy_expiry_amended_witness :
    sudoView 200 "c" (sessionAt "c" ⟨true, true, 10⟩ (some "H") none) = false ∧
    authView 200 "c" (sessionAt "c" ⟨true, true, 10⟩ (some "H") none) = false :=
  have hc := c8_lazy_expiry_amended 200 "c"
    (sessionAt "c" ⟨true, true, 10⟩ (some "H") none)
    ⟨true, true, 10⟩ (by decide) (by decide) (by decide)
  ⟨hc.1, hc.2.1 (by decide)⟩

/-- **C9.** Loading a legacy single-hash record initializes both tier hashes
from the legacy hash; with the original password (one that bcrypt-matches
the legacy hash) both the dashboard login and the sudo verification succeed,
and the next save writes the record in the new two-field format. -/
theorem c9_legacy_migration (bcmp : String → String → Bool) (h p : String)
    (se : Bool) (st0 : AuthState) (now : Nat) (id : String)
    (disk : Option VaultRecord)
    (hne : h.isEmpty = false) (hcmp : bcmp p h = true) :
    (load (legacyRaw h se) st0).dashboardPasswordHash = some h ∧
    (load (legacyRaw h se) st0).sudoPasswordHash = some h ∧
    (login bcmp now id p (load (legacyRaw h se) st0)).1 = true ∧
    verifySudoPassword bcmp p (load (legacyRaw h se) st0) = true ∧
    save true (load (legacyRaw h se) st0) disk =
      some { dashboardPasswordHash := some h, sudoPasswordHash := some h,
             sudoEnabled := se } := by
  have hj : jsTruthy (some h) = true := by
    simp [jsTruthy, hne]
  have hload : load (legacyRaw h se) st0 =
      { st0 with dashboardPasswordHash := some h, sudoPasswordHash := some h,
                 sudoEnabled := se } := by
    unfold load legacyRaw
    rw [if_pos ⟨hj, rfl⟩]
  rw [hload]
  refine ⟨rfl, rfl, ?_, ?_, rfl⟩
  · unfold login
    rw [if_neg (by dsimp only; rw [hj]; simp)]
    dsimp only [Option.getD]
    rw [if_pos hcmp]
  · unfold verifySudoPassword
    rw [if_neg (by dsimp only; rw [hj]; simp)]
    dsimp only [Option.getD]
    exact hcmp

/-- Witness for C9 with a concrete legacy hash and matching compare
function. -/
theorem c9_legacy_migration_witness :
    (login (fun a b => a == "p" && b == "H") 0 "c" "p"
      (load (legacyRaw "H" true) (initialState none none false))).1 = true ∧
    verifySudoPassword (fun a b => a == "p" && b == "H") "p"
      (load (legacyRaw "H" true) (initialState none none false)) = true :=
  have hc := c9_legacy_migration (fun a b => a == "p" && b == "H") "H" "p" true
    (initialState none none false) 0 "c" none (by decide) (by decide)
  ⟨hc.2.2.1, hc.2.2.2.1⟩

/-- **C4 counterexample.** With the sudo gate off, the `ujust:execute`
handler still performs the privileged ujust execution (its gate check is
commented out in `src/server/src/index.ts`), so a non-elevated connection
gets a root-capable action executed on its behalf. -/
theorem c4_counterexample :
    handleRequest false (ClientRequest.ujustExecute "benchmark") =
      [PrivAction.ujust "benchmark"] ∧
    handleRequest false (ClientRequest.ujustExecute "benchmark") ≠ [] := by
  decide

/-- **C4 (amended).** Every privileged handler except `ujust:execute`
performs no privileged execution when the sudo gate is off; `ujust:execute`
runs any regex-valid recipe regardless of the gate. -/
theorem c4_privileged_gate_amended (req : ClientRequest)
    (h : ∀ r, req ≠ ClientRequest.ujustExecute r) :
    handleRequest false req = [] ∧
    (∀ g r, validUjustRecipe r = true →
      handleRequest g (ClientRequest.ujustExecute r) = [PrivAction.ujust r]) := by
  constructor
  · cases req <;> first | rfl | exact absurd rfl (h _)
  · intro g r hr
    unfold handleRequest
    dsimp only
    rw [if_pos hr]

/-- Witness for the amended C4: the reboot request with the gate off does
nothing. -/
theorem c4_privileged_gate_amended_witness :
    handleRequest false (ClientRequest.systemControl "reboot") = [] :=
  (c4_privileged_gate_amended (ClientRequest.systemControl "reboot")
    (fun _ hr => ClientRequest.noConfusion hr)).1

theorem mk_data_eq (s : String) : (⟨s.data⟩ : String) = s := rfl

/-- Processing the quote-escaped path inside an opened single-quote region
appends the original path characters to the current word and leaves the
splitter just past the closing quote. -/
theorem shSplit_escSQ (cs : List Char) (rest : List Char) (acc : List Char)
    (cmd : List String) (out : List (List String)) :
    shSplit (escSQ cs ++ '\'' :: rest) ShMode.sq (some acc) cmd out =
    shSplit rest ShMode.norm (some (acc ++ cs)) cmd out := by
  induction cs generalizing acc with
  | nil =>
    simp [escSQ, shSplit]
  | cons c cs ih =>
    by_cases hc : c = '\''
    · subst hc
      have hstep : shSplit (escSQ ('\'' :: cs) ++ '\'' :: rest) ShMode.sq (some acc) cmd out =
          shSplit (escSQ cs ++ '\'' :: rest) ShMode.sq (some (acc ++ ['\''])) cmd out := rfl
      rw [hstep, ih]
      simp
    · rw [show escSQ (c :: cs) = c :: escSQ cs from by simp [escSQ, hc], List.cons_append]
      have hstep : shSplit (c :: (escSQ cs ++ '\'' :: rest)) ShMode.sq (some acc) cmd out =
          shSplit (escSQ cs ++ '\'' :: rest) ShMode.sq (some (acc ++ [c])) cmd out := by
        simp only [shSplit]
        rw [if_neg hc]
        rfl
      rw [hstep, ih]
      simp

theorem shSplit_prefix_rm (l : List Char) :
    shSplit ("sudo -n rm -rf '".data ++ l) ShMode.norm none [] [] =
    shSplit l ShMode.sq (some []) ["sudo", "-n", "rm", "-rf"] [] := rfl

theorem shSplit_prefix_test (l : List Char) :
    shSplit ("sudo -n test -d '".data ++ l) ShMode.norm none [] [] =
    shSplit l ShMode.sq (some []) ["sudo", "-n", "test", "-d"] [] := rfl

theorem shSplit_prefix_mkdir (l : List Char) :
    shSplit ("sudo -n mkdir -p '".data ++ l) ShMode.norm none [] [] =
    shSplit l ShMode.sq (some []) ["sudo", "-n", "mkdir", "-p"] [] := rfl

theorem shSplit_prefix_touch (l : List Char) :
    shSplit ("sudo -n touch '".data ++ l) ShMode.norm none [] [] =
    shSplit l ShMode.sq (some []) ["sudo", "-n", "touch"] [] := rfl

theorem shSplit_prefix_sudo (l : List Char) :
    shSplit ("sudo -n ".data ++ l) ShMode.norm none [] [] =
    shSplit l ShMode.norm none ["sudo", "-n"] [] := rfl

theorem shSplit_prefix_chown (l : List Char) :
    shSplit ("chown ".data ++ l) ShMode.norm none ["sudo", "-n"] [] =
    shSplit l ShMode.norm none ["sudo", "-n", "chown"] [] := rfl

theorem shSplit_prefix_find (l : List Char) :
    shSplit ("find '".data ++ l) ShMode.norm none ["sudo", "-n"] [] =
    shSplit l ShMode.sq (some []) ["sudo", "-n", "find"] [] := rfl

theorem shSplit_find_tail (t : List Char) :
    shSplit " -maxdepth 1 -mindepth 1 -printf \"%y|%s|%f\\n\"".data ShMode.norm
      (some t) ["sudo", "-n", "find"] [] =
    [["sudo", "-n", "find", ⟨t⟩, "-maxdepth", "1", "-mindepth", "1", "-printf",
      "%y|%s|%f\\n"]] := rfl

theorem shSplit_space_quote (l : List Char) (t : List Char) (cmd : List String)
    (out : List (List String)) :
    shSplit (' ' :: '\'' :: l) ShMode.norm (some t) cmd out =
    shSplit l ShMode.sq (some []) (cmd ++ [⟨t⟩]) out := rfl

theorem shPlainChar_spec {c : Char} (h : shPlainChar c = true) :
    ¬(c = '\'') ∧ ¬(c = '"') ∧ ¬(c = '\\') ∧
    ¬(isShSpace c = true) ∧ ¬(isShSep c = true) := by
  unfold shPlainChar at h
  simp only [Bool.not_eq_true', Bool.or_eq_false_iff, decide_eq_false_iff_not] at h
  refine ⟨h.1.1.1.1, h.1.1.1.2, h.1.1.2, ?_, ?_⟩
  · rw [h.1.2]
    simp
  · rw [h.2]
    simp

/-- Characters with no shell meaning extend the current word. -/
theorem shSplit_plain_append (cs rest : List Char) (acc : List Char)
    (cmd : List String) (out : List (List String)) (h : cs.all shPlainChar = true) :
    shSplit (cs ++ rest) ShMode.norm (some acc) cmd out =
    shSplit rest ShMode.norm (some (acc ++ cs)) cmd out := by
  induction cs generalizing acc with
  | nil =>
    simp
  | cons c cs ih =>
    rw [List.all_cons, Bool.and_eq_true] at h
    obtain ⟨h1, h2, h3, h4, h5⟩ := shPlainChar_spec h.1
    rw [List.cons_append]
    have hstep : shSplit (c :: (cs ++ rest)) ShMode.norm (some acc) cmd out =
        shSplit (cs ++ rest) ShMode.norm (some (acc ++ [c])) cmd out := by
      simp only [shSplit]
      rw [if_neg h1, if_neg h2, if_neg h3, if_neg h4, if_neg h5]
      rfl
    rw [hstep, ih _ h.2]
    simp

/-- A plain character opens a word from the in-between-words state. -/
theorem shSplit_plain_start (c : Char) (cs rest : List Char)
    (cmd : List String) (out : List (List String))
    (hc : shPlainChar c = true) (h : cs.all shPlainChar = true) :
    shSplit (c :: (cs ++ rest)) ShMode.norm none cmd out =
    shSplit rest ShMode.norm (some (c :: cs)) cmd out := by
  obtain ⟨h1, h2, h3, h4, h5⟩ := shPlainChar_spec hc
  have hstep : shSplit (c :: (cs ++ rest)) ShMode.norm none cmd out =
      shSplit (cs ++ rest) ShMode.norm (some [c]) cmd out := by
    simp only [shSplit]
    rw [if_neg h1, if_neg h2, if_neg h3, if_neg h4, if_neg h5]
    rfl
  rw [hstep, shSplit_plain_append cs rest [c] cmd out h]
  rfl

/-- Processing the interpolated `<owner>:<owner>` block of the `chown` lines
reads it as one word, provided the owner name has no shell-special
characters. -/
theorem shSplit_owner_block (od rest : List Char) (cmd : List String)
    (out : List (List String)) (h : od.all shPlainChar = true) :
    shSplit (od ++ ':' :: (od ++ rest)) ShMode.norm none cmd out =
    shSplit rest ShMode.norm (some (od ++ ':' :: od)) cmd out := by
  have hcolon : shPlainChar ':' = true := by decide
  cases od with
  | nil =>
    exact shSplit_plain_start ':' [] rest cmd out hcolon rfl
  | cons c cs =>
    rw [List.all_cons, Bool.and_eq_true] at h
    have hall : (cs ++ ':' :: (c :: cs)).all shPlainChar = true := by
      rw [List.all_append, List.all_cons, List.all_cons]
      rw [Bool.and_eq_true, Bool.and_eq_true, Bool.and_eq_true]
      exact ⟨h.2, hcolon, h.1, h.2⟩
    have hshape : (c :: cs) ++ ':' :: ((c :: cs) ++ rest) =
        c :: ((cs ++ ':' :: (c :: cs)) ++ rest) := by
      simp
    rw [hshape, shSplit_plain_start c (cs ++ ':' :: (c :: cs)) rest cmd out h.1 hall]
    rfl

theorem owner_colon_eq (owner : String) :
    owner ++ ":" ++ owner = (⟨owner.data ++ ':' :: owner.data⟩ : String) := by
  show String.mk ((owner.data ++ [':']) ++ owner.data) = _
  rw [List.append_assoc]
  rfl

/-- **C5 counterexample.** The escalated file operations do not pass the
path as a discrete argument-vector token: `createFolder` issues two command
strings, not exactly one command; the escalator receives a single
interpolated shell string; and for a path containing a quote the executed
string does not even contain the path as a whitespace token. -/
theorem c5_counterexample :
    (createFolderSudoCmds "steam" "x").length ≠ 1 ∧
    execSudoLine (deleteFileSudoCmd "a") = "sudo -n rm -rf 'a'" ∧
    naiveTokens (execSudoLine (deleteFileSudoCmd "a'b")) ≠
      ["sudo", "-n", "rm", "-rf", "a'b"] := by
  decide

/-- **C5 (amended).** Each escalated file operation interpolates the
single-quote-escaped path into fixed shell command strings (one command line
for delete, two — the probe and the `find` listing — for the escalated list,
and two — the action plus a `chown` — for create-folder/create-file); under
POSIX shell parsing every one of these command lines reads as exactly one
command in which the path appears as a single literal argument token equal
to `p`, so shell metacharacters in `p` cannot start a second command or
alter the surrounding tokens.  The `chown` lines also interpolate the owner
name, unescaped; that name is trusted deployment configuration
(`OwnerService`), and the property for those lines is stated for owner names
made of shell-plain characters, as usernames are. -/
theorem c5_escaped_single_command (p owner : String)
    (howner : owner.data.all shPlainChar = true) :
    shellParse (execSudoLine (deleteFileSudoCmd p)) = [["sudo", "-n", "rm", "-rf", p]] ∧
    shellParse (execSudoLine (listSudoProbeCmd p)) = [["sudo", "-n", "test", "-d", p]] ∧
    shellParse (execSudoLine (listSudoFindCmd p)) =
      [["sudo", "-n", "find", p, "-maxdepth", "1", "-mindepth", "1",
        "-printf", "%y|%s|%f\\n"]] ∧
    (createFolderSudoCmds owner p).length = 2 ∧
    (createFileSudoCmds owner p).length = 2 ∧
    shellParse (execSudoLine ((createFolderSudoCmds owner p).getD 0 "")) =
      [["sudo", "-n", "mkdir", "-p", p]] ∧
    shellParse (execSudoLine ((createFileSudoCmds owner p).getD 0 "")) =
      [["sudo", "-n", "touch", p]] ∧
    shellParse (execSudoLine ((createFolderSudoCmds owner p).getD 1 "")) =
      [["sudo", "-n", "chown", owner ++ ":" ++ owner, p]] ∧
    shellParse (execSudoLine ((createFileSudoCmds owner p).getD 1 "")) =
      [["sudo", "-n", "chown", owner ++ ":" ++ owner, p]] := by
  have hchown : shellParse (execSudoLine
        ("chown " ++ owner ++ ":" ++ owner ++ " '" ++ shellEscapeSQ p ++ "'")) =
      [["sudo", "-n", "chown", owner ++ ":" ++ owner, p]] := by
    have hdata : (execSudoLine
          ("chown " ++ owner ++ ":" ++ owner ++ " '" ++ shellEscapeSQ p ++ "'")).data =
        "sudo -n ".data ++ ("chown ".data ++ (owner.data ++ ':' ::
          (owner.data ++ (' ' :: '\'' :: (escSQ p.data ++ '\'' :: []))))) := by
      simp [execSudoLine, shellEscapeSQ]
    unfold shellParse
    rw [hdata, shSplit_prefix_sudo, shSplit_prefix_chown,
      shSplit_owner_block _ _ _ _ howner, shSplit_space_quote, shSplit_escSQ,
      owner_colon_eq]
    rfl
  refine ⟨?_, ?_, ?_, rfl, rfl, ?_, ?_, hchown, hchown⟩
  · show shSplit ("sudo -n rm -rf '".data ++ (escSQ p.data ++ '\'' :: []))
        ShMode.norm none [] [] = [["sudo", "-n", "rm", "-rf", p]]
    rw [shSplit_prefix_rm, shSplit_escSQ]
    rfl
  · show shSplit ("sudo -n test -d '".data ++ (escSQ p.data ++ '\'' :: []))
        ShMode.norm none [] [] = [["sudo", "-n", "test", "-d", p]]
    rw [shSplit_prefix_test, shSplit_escSQ]
    rfl
  · show shSplit ("sudo -n ".data ++ ("find '".data ++ (escSQ p.data ++ '\'' ::
        " -maxdepth 1 -mindepth 1 -printf \"%y|%s|%f\\n\"".data)))
        ShMode.norm none [] [] =
      [["sudo", "-n", "find", p, "-maxdepth", "1", "-mindepth", "1",
        "-printf", "%y|%s|%f\\n"]]
    rw [shSplit_prefix_sudo, shSplit_prefix_find, shSplit_escSQ, shSplit_find_tail]
    rfl
  · show shSplit ("sudo -n mkdir -p '".data ++ (escSQ p.data ++ '\'' :: []))
        ShMode.norm none [] [] = [["sudo", "-n", "mkdir", "-p", p]]
    rw [shSplit_prefix_mkdir, shSplit_escSQ]
    rfl
  · show shSplit ("sudo -n touch '".data ++ (escSQ p.data ++ '\'' :: []))
        ShMode.norm none [] [] = [["sudo", "-n", "touch", p]]
    rw [shSplit_prefix_touch, shSplit_escSQ]
    rfl

/-- Witness for the amended C5: a concrete path with a shell metacharacter
and the concrete trusted owner name "steam" on a chown line. -/
theorem c5_escaped_single_command_witness :
    shellParse (execSudoLine ((createFolderSudoCmds "steam" "a;b").getD 1 "")) =
      [["sudo", "-n", "chown", "steam" ++ ":" ++ "steam", "a;b"]] :=
  (c5_escaped_single_command "a;b" "steam" (by decide)).2.2.2.2.2.2.2.1

theorem lockedOpt_none : lockedOpt none := ⟨rfl, rfl⟩

theorem effSession_locked {o : Option Session} (h : lockedOpt o) (now : Nat) :
    effSession now (o.getD freshSession) = o.getD freshSession :=
  effSession_of_not_auth now h.1

/-- `getSession` on related states: the two sessions it returns have equal
flags, their written-back records stay related, and so do the two result
states. -/
theorem sessRel_getSession (now : Nat) (id : String) {t1 t2 : AuthState}
    (hrel : StateRel t1 t2) :
    (getSession now id t1).1.isAuthenticated = (getSession now id t2).1.isAuthenticated ∧
    (getSession now id t1).1.isSudo = (getSession now id t2).1.isSudo ∧
    SessRel (some (getSession now id t1).1) (some (getSession now id t2).1) ∧
    StateRel (getSession now id t1).2 (getSession now id t2).2 := by
  obtain ⟨hd, hsu, hse, hsess⟩ := hrel
  have hmain : (getSession now id t1).1 = (getSession now id t2).1 ∨
      (((getSession now id t1).1.isAuthenticated = false ∧
        (getSession now id t1).1.isSudo = false) ∧
       ((getSession now id t2).1.isAuthenticated = false ∧
        (getSession now id t2).1.isSudo = false)) := by
    rcases hsess id with heq | ⟨hl1, hl2⟩
    · left
      rw [getSession_fst, getSession_fst, heq]
    · right
      rw [getSession_fst, getSession_fst, effSession_locked hl1, effSession_locked hl2]
      exact ⟨hl1, hl2⟩
  have hflag : (getSession now id t1).1.isAuthenticated =
        (getSession now id t2).1.isAuthenticated ∧
      (getSession now id t1).1.isSudo = (getSession now id t2).1.isSudo := by
    rcases hmain with heq | ⟨⟨h1a, h1s⟩, h2a, h2s⟩
    · rw [heq]
      exact ⟨rfl, rfl⟩
    · rw [h1a, h1s, h2a, h2s]
      exact ⟨rfl, rfl⟩
  refine ⟨hflag.1, hflag.2, ?_, ?_, ?_, ?_, ?_⟩
  · rcases hmain with heq | ⟨h1, h2⟩
    · exact Or.inl (by rw [heq])
    · exact Or.inr ⟨h1, h2⟩
  · rw [(getSession_spec now id t1).2.1, (getSession_spec now id t2).2.1]
    exact hd
  · rw [(getSession_spec now id t1).2.2.1, (getSession_spec now id t2).2.2.1]
    exact hsu
  · rw [(getSession_spec now id t1).2.2.2, (getSession_spec now id t2).2.2.2]
    exact hse
  · intro id2
    rw [(getSession_spec now id t1).1, (getSession_spec now id t2).1]
    by_cases hid : id2 = id
    · subst hid
      rw [mapSet_self, mapSet_self]
      rcases hmain with heq | ⟨h1, h2⟩
      · exact Or.inl (by rw [heq])
      · exact Or.inr ⟨h1, h2⟩
    · rw [mapSet_ne _ _ _ _ hid, mapSet_ne _ _ _ _ hid]
      exact hsess id2

/-- Writing related records at the same key over the states `getSession`
left behind preserves the state relation. -/
theorem stateRel_mapSet_post (now : Nat) (id : String) {t1 t2 : AuthState}
    (hrel : StateRel t1 t2) {v1 v2 : Session} (hv : SessRel (some v1) (some v2)) :
    StateRel
      { (getSession now id t1).2 with
          sessions := mapSet id v1 (getSession now id t1).2.sessions }
      { (getSession now id t2).2 with
          sessions := mapSet id v2 (getSession now id t2).2.sessions } := by
  obtain ⟨hd, hsu, hse, hsess⟩ := (sessRel_getSession now id hrel).2.2.2
  refine ⟨hd, hsu, hse, ?_⟩
  intro id2
  dsimp only
  by_cases hid : id2 = id
  · subst hid
    rw [mapSet_self, mapSet_self]
    exact hv
  · rw [mapSet_ne _ _ _ _ hid, mapSet_ne _ _ _ _ hid]
    exact hsess id2

theorem stateRel_setAuthenticated (now : Nat) (id : String) (b : Bool)
    {t1 t2 : AuthState} (hrel : StateRel t1 t2) :
    StateRel (setAuthenticated now id b t1) (setAuthenticated now id b t2) := by
  have hs := (sessRel_getSession now id hrel).2.1
  unfold setAuthenticated
  cases b with
  | true =>
    dsimp only
    apply stateRel_mapSet_post now id hrel
    left
    simp [hs]
  | false =>
    dsimp only
    apply stateRel_mapSet_post now id hrel
    exact Or.inr ⟨⟨rfl, rfl⟩, rfl, rfl⟩

theorem stateRel_setSudo (now : Nat) (id : String) (b : Bool)
    {t1 t2 : AuthState} (hrel : StateRel t1 t2) :
    StateRel (setSudo now id b t1) (setSudo now id b t2) := by
  obtain ⟨ha, hs, hsrel, hrel2⟩ := sessRel_getSession now id hrel
  unfold setSudo
  cases b with
  | true =>
    by_cases hg : (getSession now id t1).1.isAuthenticated = false
    · have hg2 : (getSession now id t2).1.isAuthenticated = false := by
        rw [← ha]
        exact hg
      rw [if_pos ⟨hg, rfl⟩, if_pos ⟨hg2, rfl⟩]
      exact hrel2
    · have hg2 : ¬((getSession now id t2).1.isAuthenticated = false ∧ true = true) := by
        intro hc
        rw [← ha] at hc
        exact hg hc.1
      rw [if_neg (fun hc => hg hc.1), if_neg hg2]
      dsimp only
      apply stateRel_mapSet_post now id hrel
      left
      simp [ha]
  | false =>
    have hng1 : ¬((getSession now id t1).1.isAuthenticated = false ∧ false = true) := by
      intro hc
      exact absurd hc.2 (by simp)
    have hng2 : ¬((getSession now id t2).1.isAuthenticated = false ∧ false = true) := by
      intro hc
      exact absurd hc.2 (by simp)
    rw [if_neg hng1, if_neg hng2]
    dsimp only
    apply stateRel_mapSet_post now id hrel
    rcases hsrel with heq | ⟨h1, h2⟩
    · injection heq with heq
      exact Or.inl (by rw [heq])
    · exact Or.inr ⟨⟨h1.1, rfl⟩, h2.1, rfl⟩

theorem stateRel_requestToggleSudo (now : Nat) (id : String)
    {t1 t2 : AuthState} (hrel : StateRel t1 t2) :
    (requestToggleSudo now id t1).1 = (requestToggleSudo now id t2).1 ∧
    StateRel (requestToggleSudo now id t1).2 (requestToggleSudo now id t2).2 := by
  obtain ⟨ha, hs, hsrel, hrel2⟩ := sessRel_getSession now id hrel
  have hsud : jsTruthy t1.sudoPasswordHash = jsTruthy t2.sudoPasswordHash := by
    rw [hrel.2.1]
  unfold requestToggleSudo
  dsimp only
  by_cases hq : (getSession now id t1).1.isSudo = true
  · have hq2 : (getSession now id t2).1.isSudo = true := by
      rw [← hs]
      exact hq
    rw [if_pos hq, if_pos hq2]
    exact ⟨rfl, stateRel_setSudo now id false hrel2⟩
  · have hq2 : ¬((getSession now id t2).1.isSudo = true) := by
      rw [← hs]
      exact hq
    rw [if_neg hq, if_neg hq2]
    by_cases hop : jsTruthy t1.sudoPasswordHash = false
    · rw [if_pos hop, if_pos (by rw [← hsud]; exact hop)]
      exact ⟨rfl, stateRel_setSudo now id true hrel2⟩
    · rw [if_neg hop, if_neg (by rw [← hsud]; exact hop)]
      exact ⟨rfl, hrel2⟩

theorem stateRel_refreshSession (now : Nat) (id : String)
    {t1 t2 : AuthState} (hrel : StateRel t1 t2) :
    StateRel (refreshSession now id t1) (refreshSession now id t2) := by
  obtain ⟨ha, hs, hsrel, hrel2⟩ := sessRel_getSession now id hrel
  unfold refreshSession
  dsimp only
  by_cases hb : (getSession now id t1).1.isAuthenticated = true
  · have hb2 : (getSession now id t2).1.isAuthenticated = true := by
      rw [← ha]
      exact hb
    rw [if_pos hb, if_pos hb2]
    apply stateRel_mapSet_post now id hrel
    rcases hsrel with heq | ⟨h1, h2⟩
    · injection heq with heq
      exact Or.inl (by rw [heq])
    · have h1a : (getSession now id t1).1.isAuthenticated = false := h1.1
      rw [hb] at h1a
      exact absurd h1a (by simp)
  · have hb2 : ¬((getSession now id t2).1.isAuthenticated = true) := by
      rw [← ha]
      exact hb
    rw [if_neg hb, if_neg hb2]
    exact hrel2

theorem stateRel_login (bcmp : String → String → Bool) (now : Nat) (id pw : String)
    {t1 t2 : AuthState} (hrel : StateRel t1 t2) :
    (login bcmp now id pw t1).1 = (login bcmp now id pw t2).1 ∧
    StateRel (login bcmp now id pw t1).2 (login bcmp now id pw t2).2 := by
  have hd : t1.dashboardPasswordHash = t2.dashboardPasswordHash := hrel.1
  unfold login
  rw [hd]
  by_cases hop : jsTruthy t2.dashboardPasswordHash = false
  · rw [if_pos hop, if_pos hop]
    exact ⟨rfl, stateRel_setAuthenticated now id true hrel⟩
  · rw [if_neg hop, if_neg hop]
    by_cases hcmp : bcmp pw (t2.dashboardPasswordHash.getD "") = true
    · rw [if_pos hcmp, if_pos hcmp]
      exact ⟨rfl, stateRel_setAuthenticated now id true hrel⟩
    · rw [if_neg hcmp, if_neg hcmp]
      exact ⟨rfl, hrel⟩

theorem stateRel_queries (now : Nat) (id : String)
    {t1 t2 : AuthState} (hrel : StateRel t1 t2) :
    (isAuthenticatedQ now id t1).1 = (isAuthenticatedQ now id t2).1 ∧
    StateRel (isAuthenticatedQ now id t1).2 (isAuthenticatedQ now id t2).2 ∧
    (isSudoQ now id t1).1 = (isSudoQ now id t2).1 ∧
    StateRel (isSudoQ now id t1).2 (isSudoQ now id t2).2 ∧
    (checkSession now id t1).1 = (checkSession now id t2).1 ∧
    StateRel (checkSession now id t1).2 (checkSession now id t2).2 := by
  obtain ⟨ha, hs, hsrel, hrel2⟩ := sessRel_getSession now id hrel
  have hd : t1.dashboardPasswordHash = t2.dashboardPasswordHash := hrel.1
  have hen : t1.sudoEnabled = t2.sudoEnabled := hrel.2.2.1
  refine ⟨?_, ?_, ?_, hrel2, ?_, hrel2⟩
  · unfold isAuthenticatedQ
    rw [hd]
    by_cases hop : jsTruthy t2.dashboardPasswordHash = false
    · rw [if_pos hop, if_pos hop]
    · rw [if_neg hop, if_neg hop]
      dsimp only
      exact ha
  · unfold isAuthenticatedQ
    rw [hd]
    by_cases hop : jsTruthy t2.dashboardPasswordHash = false
    · rw [if_pos hop, if_pos hop]
      exact hrel
    · rw [if_neg hop, if_neg hop]
      exact hrel2
  · unfold isSudoQ
    dsimp only
    exact hs
  · unfold checkSession
    dsimp only
    rw [hd, ha, hen]

theorem stateRel_removeSession (id : String)
    {t1 t2 : AuthState} (hrel : StateRel t1 t2) :
    StateRel (removeSession id t1) (removeSession id t2) := by
  obtain ⟨hd, hsu, hse, hsess⟩ := hrel
  refine ⟨hd, hsu, hse, ?_⟩
  intro id2
  unfold removeSession mapDelete
  dsimp only
  by_cases hid : id2 = id
  · rw [if_pos hid, if_pos hid]
    exact Or.inl rfl
  · rw [if_neg hid, if_neg hid]
    exact hsess id2

theorem stateRel_cleanup (now : Nat)
    {t1 t2 : AuthState} (hrel : StateRel t1 t2) :
    StateRel (cleanupSessions now t1) (cleanupSessions now t2) := by
  obtain ⟨hd, hsu, hse, hsess⟩ := hrel
  refine ⟨hd, hsu, hse, ?_⟩
  intro id2
  unfold cleanupSessions
  dsimp only
  rcases hsess id2 with heq | ⟨hl1, hl2⟩
  · rw [heq]
    exact Or.inl rfl
  · right
    constructor
    · cases ho : t1.sessions id2 with
      | none => exact lockedOpt_none
      | some s =>
        rw [ho] at hl1
        dsimp only
        split
        · exact lockedOpt_none
        · exact hl1
    · cases ho : t2.sessions id2 with
      | none => exact lockedOpt_none
      | some s =>
        rw [ho] at hl2
        dsimp only
        split
        · exact lockedOpt_none
        · exact hl2

/-- The sweep deletes exactly the records whose deadline is in the past. -/
theorem cleanup_deletes_expired (now : Nat) (st : AuthState) (id : String)
    (s : Session) (h : st.sessions id = some s) :
    (cleanupSessions now st).sessions id =
      (if s.expiresAt < now then none else some s) := by
  unfold cleanupSessions
  dsimp only
  rw [h]

/-- The states after the real sweep and after the spec's reset-to-Locked
sweep are related. -/
theorem cleanup_rel_reset (now : Nat) (st : AuthState) :
    StateRel (cleanupSessions now st) (cleanupResetSpec now st) := by
  refine ⟨rfl, rfl, rfl, ?_⟩
  intro id
  unfold cleanupSessions cleanupResetSpec
  dsimp only
  cases ho : st.sessions id with
  | none => exact Or.inl rfl
  | some s =>
    dsimp only
    by_cases hexp : s.expiresAt < now
    · rw [if_pos hexp, if_pos hexp]
      exact Or.inr ⟨lockedOpt_none, rfl, rfl⟩
    · rw [if_neg hexp, if_neg hexp]
      exact Or.inl rfl

theorem stateRel_setPw (bhash : String → String) (pw : String)
    {t1 t2 : AuthState} (hrel : StateRel t1 t2) :
    StateRel (setDashboardPassword bhash pw true t1 none).1
      (setDashboardPassword bhash pw true t2 none).1 ∧
    StateRel (setSudoPassword bhash pw true t1 none).1
      (setSudoPassword bhash pw true t2 none).1 := by
  obtain ⟨hd, hsu, hse, hsess⟩ := hrel
  exact ⟨⟨rfl, hsu, hse, hsess⟩, ⟨hd, rfl, hse, hsess⟩⟩

/-- **C10.** The periodic sweep deletes every record whose `expiresAt` is in
the past (never-authenticated records included, since they carry
`expiresAt = 0`); this deletion is observationally equivalent to the spec's
reset-to-Locked sweep: the two resulting states are related by `StateRel`,
and `StateRel` is a bisimulation — it is preserved by every service
operation and makes every query and operation result agree — so no sequence
of queries can distinguish a swept session from one reset in place (an
unknown id is lazily recreated as a fresh Locked record). -/
theorem c10_sweep_equiv_reset_locked (st s1 s2 : AuthState) (now : Nat)
    (hrel : StateRel s1 s2) :
    (∀ id s, st.sessions id = some s →
      (cleanupSessions now st).sessions id =
        (if s.expiresAt < now then none else some s)) ∧
    StateRel (cleanupSessions now st) (cleanupResetSpec now st) ∧
    (∀ bcmp bhash op, StateRel (applyOp bcmp bhash op s1) (applyOp bcmp bhash op s2)) ∧
    (∀ nowq id, authView nowq id s1 = authView nowq id s2 ∧
      sudoView nowq id s1 = sudoView nowq id s2 ∧
      (checkSession nowq id s1).1 = (checkSession nowq id s2).1 ∧
      (requestToggleSudo nowq id s1).1 = (requestToggleSudo nowq id s2).1) ∧
    (∀ bcmp nowq id pw,
      (login bcmp nowq id pw s1).1 = (login bcmp nowq id pw s2).1 ∧
      verifySudoPassword bcmp pw s1 = verifySudoPassword bcmp pw s2) := by
  refine ⟨cleanup_deletes_expired now st, cleanup_rel_reset now st, ?_, ?_, ?_⟩
  · intro bcmp bhash op
    cases op with
    | loginOp nowo id pw => exact (stateRel_login bcmp nowo id pw hrel).2
    | setAuthOp nowo id b => exact stateRel_setAuthenticated nowo id b hrel
    | setSudoOp nowo id b => exact stateRel_setSudo nowo id b hrel
    | toggleOp nowo id => exact (stateRel_requestToggleSudo nowo id hrel).2
    | refreshOp nowo id => exact stateRel_refreshSession nowo id hrel
    | isAuthOp nowo id => exact (stateRel_queries nowo id hrel).2.1
    | isSudoOp nowo id => exact (stateRel_queries nowo id hrel).2.2.2.1
    | checkOp nowo id => exact (stateRel_queries nowo id hrel).2.2.2.2.2
    | removeOp id => exact stateRel_removeSession id hrel
    | cleanupOp nowo => exact stateRel_cleanup nowo hrel
    | setDashPwOp pw => exact (stateRel_setPw bhash pw hrel).1
    | setSudoPwOp pw => exact (stateRel_setPw bhash pw hrel).2
  · intro nowq id
    exact ⟨(stateRel_queries nowq id hrel).1, (stateRel_queries nowq id hrel).2.2.1,
      (stateRel_queries nowq id hrel).2.2.2.2.1, (stateRel_requestToggleSudo nowq id hrel).1⟩
  · intro bcmp nowq id pw
    refine ⟨(stateRel_login bcmp nowq id pw hrel).1, ?_⟩
    unfold verifySudoPassword
    rw [hrel.2.1]

/-- Witness for C10: a concrete expired authenticated session swept at time
5 versus the spec's reset of the same state, and a concrete pair of related
states whose observations agree. -/
theorem c10_sweep_equiv_reset_locked_witness :
    StateRel (cleanupSessions 5 (sessionAt "c" ⟨true, false, 3⟩ none none))
      (cleanupResetSpec 5 (sessionAt "c" ⟨true, false, 3⟩ none none)) ∧
    authView 7 "c" (initialState (some "H") none false) =
      authView 7 "c" (initialState (some "H") none false) :=
  have hr := c10_sweep_equiv_reset_locked
    (sessionAt "c" ⟨true, false, 3⟩ none none)
    (initialState (some "H") none false) (initialState (some "H") none false) 5
    ⟨rfl, rfl, rfl, fun _ => Or.inl rfl⟩
  ⟨hr.2.1, (hr.2.2.2.1 7 "c").1⟩

end Bazzeye
